import Mathlib

/-!
Shallow embedding of `src/dataloader/tmreport.py` (class `TitleMasterReport`).

Cells of the underlying spreadsheet are modelled by `CellValue` (openpyxl
returns `None` for an empty cell, a string, or a number).  A worksheet is a
total function from 1-based (row, column) coordinates to cell values.

Python exceptions are modelled by the `Err` type; each constructor is named
after the error kind the specification assigns to that failure site:
  * `malformedPeriod`   — IndexError from `split(...)[i]` in `begin_date` / `end_date`
  * `malformedLayout`   — named in the spec for `title_type`; the source has no
                          site that can raise it (`report_id[3:4]` is a slice,
                          which never fails on a string)
  * `unsupportedLayout` — KeyError from the layout-count dict lookup
  * `invalidDate`       — ValueError from `int(...)` on the month substring
  * `schemaMismatch`    — TypeError from `namedtuple._make` arity check
  * `badFieldNames`     — ValueError from the `collections.namedtuple` field-name
                          validation in `get_row` (duplicate names, names with
                          characters other than alphanumerics/underscores,
                          keywords, or names starting with an underscore or a
                          digit; Python 2.7 raises IndexError at the same site
                          for an empty name — all modelled as this kind, since
                          each aborts `get_row` before any record is built)
  * `attrError`         — AttributeError/TypeError from calling a string
                          operation on a non-string cell value
  * `emptyCols`         — ValueError from `max([])` in `get_row`
-/

instance exceptDecEq {ε α : Type} [DecidableEq ε] [DecidableEq α] :
    DecidableEq (Except ε α)
  | Except.ok a, Except.ok b =>
    if h : a = b then isTrue (by rw [h]) else isFalse (by simp [h])
  | Except.error a, Except.error b =>
    if h : a = b then isTrue (by rw [h]) else isFalse (by simp [h])
  | Except.ok _, Except.error _ => isFalse (by simp)
  | Except.error _, Except.ok _ => isFalse (by simp)

inductive CellValue where
  | missing
  | text (s : String)
  | num (n : Int)
deriving DecidableEq

structure Worksheet where
  cell : Nat → Nat → CellValue

inductive Err where
  | malformedPeriod
  | malformedLayout
  | unsupportedLayout
  | invalidDate
  | schemaMismatch
  | badFieldNames
  | attrError
  | emptyCols
deriving DecidableEq

/-- Python `str.split(sep)` for a single-character separator, on char lists.
`"".split(c) = [""]`, `";".split(";") = ["", ""]`, etc. -/
def pySplit (sep : Char) : List Char → List (List Char)
  | [] => [[]]
  | c :: cs =>
    if c = sep then [] :: pySplit sep cs
    else
      match pySplit sep cs with
      | [] => [[c]]
      | g :: gs => (c :: g) :: gs

def pySplitStr (sep : Char) (s : String) : List String :=
  (pySplit sep s.data).map String.mk

/-- Python string slice `s[a:b]` for non-negative literal bounds. -/
def pySliceStr (s : String) (a b : Nat) : String :=
  String.mk ((s.data.drop a).take (b - a))

/-- Python `str.lower()` (ASCII, which is all the source feeds it). -/
def pyLower (s : String) : String :=
  String.mk (s.data.map Char.toLower)

def digitsToNat (cs : List Char) : Nat :=
  cs.foldl (fun a c => a * 10 + (c.toNat - 48)) 0

def isPySpace (c : Char) : Bool :=
  c = ' ' || c = '\t' || c = '\n' || c = '\r' || c = '\x0b' || c = '\x0c'

/-- Python `int(s)`: optional surrounding whitespace, optional sign, then a
non-empty run of decimal digits; anything else raises ValueError (`none`). -/
def pyInt (s : String) : Option Int :=
  let cs := (((s.data.dropWhile isPySpace).reverse.dropWhile isPySpace).reverse)
  match cs with
  | [] => none
  | c :: rest =>
    if c = '-' then
      if rest ≠ [] ∧ rest.all Char.isDigit then some (-(digitsToNat rest : Int)) else none
    else if c = '+' then
      if rest ≠ [] ∧ rest.all Char.isDigit then some (digitsToNat rest) else none
    else if (c :: rest).all Char.isDigit then some (digitsToNat (c :: rest)) else none

/-- Python list slice `l[a:b]` (step 1) with Int bounds: negative indices count
from the end, and both bounds are clamped to `[0, len(l)]`. -/
def pySlice {α : Type} (l : List α) (a b : Int) : List α :=
  (l.take ((if b < 0 then max ((l.length : Int) + b) 0 else min b (l.length : Int)).toNat)).drop
    ((if a < 0 then max ((l.length : Int) + a) 0 else min a (l.length : Int)).toNat)

/-! Class constants of `TitleMasterReport`. -/

def PERIODS : List String :=
  ["", "jan", "feb", "mar", "apr", "may", "jun", "jul", "aug", "sep", "oct",
   "nov", "dec"]

def MAX_COLS : Nat := 16384
def MAX_ROWS : Nat := 1048576
def HEADER_ROW : Nat := 14
def DATA_ROW_START : Nat := 15
def DATA_COL_START : Nat := 1

/-- A loaded report: `__init__` keeps the active worksheet and reads the two
metadata cells from it (modelled as derived reads below). -/
structure TitleMasterReport where
  ws : Worksheet

/-- `self._report_id = worksheet.cell(row=2, column=2).value` -/
def report_id (rep : TitleMasterReport) : CellValue := rep.ws.cell 2 2

/-- `self._reporting_period = worksheet.cell(row=10, column=2).value` -/
def reporting_period (rep : TitleMasterReport) : CellValue := rep.ws.cell 10 2

/-- `begin_date`: `self._reporting_period.split(';')[0].split('=')[1]`.
`split` on a non-string raises (attrError); the `[1]` raises IndexError
(malformedPeriod) when the first entry has no `=`. `[0]` cannot fail since
`split` always returns at least one entry. -/
def begin_date (rep : TitleMasterReport) : Except Err String :=
  match reporting_period rep with
  | CellValue.text s =>
    match (pySplitStr '=' ((pySplitStr ';' s).headD ""))[1]? with
    | some v => Except.ok v
    | none => Except.error Err.malformedPeriod
  | _ => Except.error Err.attrError

/-- `end_date`: `self._reporting_period.split(';')[1].split('=')[1]`. -/
def end_date (rep : TitleMasterReport) : Except Err String :=
  match reporting_period rep with
  | CellValue.text s =>
    match (pySplitStr ';' s)[1]? with
    | none => Except.error Err.malformedPeriod
    | some kv_pair =>
      match (pySplitStr '=' kv_pair)[1]? with
      | some v => Except.ok v
      | none => Except.error Err.malformedPeriod
  | _ => Except.error Err.attrError

/-- `title_type`: `self.report_id[3:4]` — a slice, which on a string never
raises and yields `""` when the string is shorter than 4 characters. -/
def title_type (rep : TitleMasterReport) : Except Err String :=
  match report_id rep with
  | CellValue.text s => Except.ok (pySliceStr s 3 4)
  | _ => Except.error Err.attrError

/-- The dict `col = {'TR_J1': 11, 'TR_J3': 12, 'TR_B1': 13, 'TR_B3': 14}`;
lookup of any other key raises KeyError. -/
def layoutCols (code : String) : Option Nat :=
  if code = "TR_J1" then some 11
  else if code = "TR_J3" then some 12
  else if code = "TR_B1" then some 13
  else if code = "TR_B3" then some 14
  else none

/-- `cell.lower()` on a header cell: only strings have `.lower`. -/
def cellLower : CellValue → Except Err String
  | CellValue.text s => Except.ok (pyLower s)
  | _ => Except.error Err.attrError

/-- The header-cell loop of `_header_row`: `for` each column in the list,
append `cell.lower()`, propagating the first failure. -/
def lowerCells (f : Nat → CellValue) : List Nat → Except Err (List String)
  | [] => Except.ok []
  | c :: cs =>
    match cellLower (f c) with
    | Except.error e => Except.error e
    | Except.ok s =>
      match lowerCells f cs with
      | Except.error e => Except.error e
      | Except.ok rest => Except.ok (s :: rest)

/-- `int(date[5:7])` for a date string: ValueError becomes `invalidDate`. -/
def monthInt (s : String) : Except Err Int :=
  match pyInt (pySliceStr s 5 7) with
  | some m => Except.ok m
  | none => Except.error Err.invalidDate

/-- `_header_row`: lower-cased header cells of columns `1..col[report_id]`
of row 14, followed by `PERIODS[start_month:end_month+1]`.  The nested
matches mirror the order in which the Python statements can raise. -/
def header_row (rep : TitleMasterReport) : Except Err (List String) :=
  match report_id rep with
  | CellValue.text code =>
    match layoutCols code with
    | none => Except.error Err.unsupportedLayout
    | some count =>
      match lowerCells (fun c => rep.ws.cell HEADER_ROW c) (List.range' 1 count) with
      | Except.error e => Except.error e
      | Except.ok idCols =>
        match begin_date rep with
        | Except.error e => Except.error e
        | Except.ok bd =>
          match monthInt bd with
          | Except.error e => Except.error e
          | Except.ok start_month =>
            match end_date rep with
            | Except.error e => Except.error e
            | Except.ok ed =>
              match monthInt ed with
              | Except.error e => Except.error e
              | Except.ok end_month =>
                Except.ok (idCols ++ pySlice PERIODS start_month (end_month + 1))
  | _ => Except.error Err.unsupportedLayout

/-- The scanning loop shared by `data_rows` and `data_cols`: starting at
index `r`, advance while `stop` is false, for at most `fuel` probes (the
`iter_rows`/`iter_cols` range bound); return the index reached. -/
def scanFrom (stop : Nat → Bool) : Nat → Nat → Nat
  | r, 0 => r
  | r, fuel + 1 => if stop r then r else scanFrom stop (r + 1) fuel

/-- `data_rows`: scan column 1 from row 15 up to `MAX_ROWS`, stopping at the
first missing cell; return `range(DATA_ROW_START, r)`. -/
def data_rows (rep : TitleMasterReport) : List Nat :=
  List.range' DATA_ROW_START
    (scanFrom (fun row => decide (rep.ws.cell row 1 = CellValue.missing))
        DATA_ROW_START (MAX_ROWS - DATA_ROW_START + 1)
      - DATA_ROW_START)

/-- `data_cols`: scan row 14 from column 1 up to `MAX_COLS`, stopping at the
first missing cell; return `range(DATA_COL_START, c)`. -/
def data_cols (rep : TitleMasterReport) : List Nat :=
  List.range' DATA_COL_START
    (scanFrom (fun col => decide (rep.ws.cell HEADER_ROW col = CellValue.missing))
        DATA_COL_START (MAX_COLS - DATA_COL_START + 1)
      - DATA_COL_START)

/-- Python `str(cell)` for the modelled cell values. -/
def cellStr : CellValue → String
  | CellValue.missing => ""
  | CellValue.text s => s
  | CellValue.num n => toString n

/-- `str(cell).replace('"', '')`: remove every double-quote character. -/
def stripQuotes (s : String) : String :=
  String.mk (s.data.filter (fun c => c ≠ '"'))

/-- The per-cell body of the `get_row` loop:
`'' if cell is None else str(cell).replace('"', '')`. -/
def normalizeCell (v : CellValue) : String :=
  match v with
  | CellValue.missing => ""
  | v => stripQuotes (cellStr v)

/-- The Python 2 keywords, as tested by `keyword.iskeyword` during
`collections.namedtuple` field-name validation. -/
def pyKeywords : List String :=
  ["and", "as", "assert", "break", "class", "continue", "def", "del",
   "elif", "else", "except", "exec", "finally", "for", "from", "global",
   "if", "import", "in", "is", "lambda", "not", "or", "pass", "print",
   "raise", "return", "try", "while", "with", "yield"]

def isIdentChar (c : Char) : Bool := c.isAlphanum || c == '_'

/-- One field name is acceptable to `collections.namedtuple`: only
alphanumerics/underscores, not a keyword, not starting with a digit, not
starting with an underscore (rename=False), and non-empty (an empty name
fails the Python 2.7 `name[0]` probe at the same site). -/
def validFieldName (s : String) : Bool :=
  match s.data with
  | [] => false
  | c :: _ =>
    s.data.all isIdentChar && !(pyKeywords.contains s) && !c.isDigit && c != '_'

/-- `collections.namedtuple('ReportRow', header)` accepts the header only if
every field name is individually valid and no name occurs twice; otherwise
it raises before any record is constructed. -/
def validFieldNames (names : List String) : Bool :=
  names.all validFieldName && decide names.Nodup

/-- The namedtuple built by `get_row`: field names plus positional values.
`_make` enforces that the value count equals the field count. -/
structure ReportRow where
  fields : List String
  values : List String
deriving DecidableEq

/-- `get_row(n)`: build the header (may raise), create the record type —
`collections.namedtuple('ReportRow', header)` validates the field names and
raises ValueError (`badFieldNames`) on a bad or duplicate name — then read
cells of columns `1..max(data_cols())` of row `n` (ValueError `emptyCols`
when `data_cols()` is empty), normalize each, and assemble the record;
`namedtuple._make` raises TypeError (`schemaMismatch`) when the arity
differs.  The order matches the source: the namedtuple call precedes the
`max(self.data_cols())` evaluation. -/
def get_row (rep : TitleMasterReport) (n : Nat) : Except Err ReportRow :=
  match header_row rep with
  | Except.error e => Except.error e
  | Except.ok header =>
    if validFieldNames header then
      match (data_cols rep).max? with
      | none => Except.error Err.emptyCols
      | some maxc =>
        if ((List.range' 1 maxc).map (fun c => normalizeCell (rep.ws.cell n c))).length
            = header.length then
          Except.ok ⟨header,
            (List.range' 1 maxc).map (fun c => normalizeCell (rep.ws.cell n c))⟩
        else
          Except.error Err.schemaMismatch
    else
      Except.error Err.badFieldNames

/-! Helper lemmas about the embedded Python primitives. -/

theorem except_ok_bind {ε α β : Type} (a : α) (g : α → Except ε β) :
    (Except.ok a >>= g : Except ε β) = g a := rfl

theorem except_pure_eq {ε α : Type} (a : α) :
    (pure a : Except ε α) = Except.ok a := rfl

/-- `split` keeps the text before the first separator as the first entry. -/
theorem pySplit_append (sep : Char) (u rest : List Char) (hu : sep ∉ u) :
    pySplit sep (u ++ sep :: rest) = u :: pySplit sep rest := by
  induction u with
  | nil => simp [pySplit]
  | cons c u ih =>
    have hc : c ≠ sep := by rintro rfl; exact hu (List.mem_cons_self _ _)
    have hu' : sep ∉ u := fun h => hu (List.mem_cons_of_mem _ h)
    simp only [List.cons_append, List.append_eq, pySplit, if_neg hc, ih hu']

/-- Reading each header cell succeeds with the lower-cased name when every
cell in the range holds a string. -/
theorem lowerCells_ok (f : Nat → CellValue) (names : Nat → String) :
    ∀ l : List Nat, (∀ c ∈ l, f c = CellValue.text (names c)) →
      lowerCells f l = Except.ok (l.map (fun c => pyLower (names c)))
  | [], _ => by rfl
  | c :: l, h => by
    have hc : f c = CellValue.text (names c) := h c (List.mem_cons_self _ _)
    have ih := lowerCells_ok f names l (fun x hx => h x (List.mem_cons_of_mem _ hx))
    simp only [lowerCells, hc, cellLower, ih, List.map_cons]

/-- For non-negative bounds, the Python slice is a drop followed by a take. -/
theorem pySlice_nonneg {α : Type} (l : List α) (a b : Int) (ha : 0 ≤ a) (hb : 0 ≤ b) :
    pySlice l a b = (l.drop a.toNat).take (b.toNat - a.toNat) := by
  simp only [pySlice]
  rw [if_neg (by omega), if_neg (by omega)]
  have hbn : (min b (l.length : Int)).toNat = min b.toNat l.length := by omega
  have han : (min a (l.length : Int)).toNat = min a.toNat l.length := by omega
  rw [hbn, han]
  have h1 : l.take (min b.toNat l.length) = l.take b.toNat := by
    rcases le_total b.toNat l.length with h | h
    · rw [min_eq_left h]
    · rw [min_eq_right h, List.take_length, List.take_of_length_le h]
  rw [h1]
  rcases le_total a.toNat l.length with h | h
  · rw [min_eq_left h, List.drop_take]
  · rw [min_eq_right h]
    have h2 : (l.take b.toNat).drop l.length = [] := by
      apply List.drop_eq_nil_of_le
      rw [List.length_take]
      exact Nat.min_le_right _ _
    have h3 : l.drop a.toNat = [] := List.drop_eq_nil_of_le h
    rw [h2, h3, List.take_nil]

/-- The probing loop stops exactly at the first index satisfying `stop`,
provided that index lies within the fuel bound. -/
theorem scanFrom_spec (stop : Nat → Bool) :
    ∀ (fuel start k : Nat), start ≤ k → k < start + fuel → stop k = true →
      (∀ r, start ≤ r → r < k → stop r = false) →
      scanFrom stop start fuel = k
  | 0, _, _, h1, h2, _, _ => absurd h2 (by omega)
  | fuel + 1, start, k, h1, h2, hk, hpre => by
    unfold scanFrom
    by_cases hs : stop start = true
    · have heq : start = k := by
        by_contra hne
        have hlt : start < k := by omega
        rw [hpre start (Nat.le_refl _) hlt] at hs
        exact Bool.noConfusion hs
      rw [if_pos hs]
      exact heq
    · have hsf : stop start = false := by
        cases hx : stop start
        · rfl
        · exact absurd hx hs
      have hne : start ≠ k := by
        rintro rfl
        rw [hk] at hsf
        exact Bool.noConfusion hsf
      rw [if_neg hs]
      exact scanFrom_spec stop fuel (start + 1) k (by omega) (by omega) hk
        (fun r hr1 hr2 => hpre r (by omega) hr2)

/-- The second field of a `key=value=extra` entry: `split('=')[1]` selects the
text strictly between the first and second `=`. -/
theorem pySplitStr_get1 (t : String) (u v w : List Char)
    (ht : t.data = u ++ '=' :: (v ++ '=' :: w)) (hu : '=' ∉ u) (hv : '=' ∉ v) :
    (pySplitStr '=' t)[1]? = some (String.mk v) := by
  unfold pySplitStr
  rw [ht, pySplit_append _ _ _ hu, pySplit_append _ _ _ hv]
  simp

/-! Claim theorems. -/

/-- C5: if the reporting-period string has fewer than 2 semicolon-separated
entries, or its first (resp. second) entry lacks a `=` separator, then the
affected accessor `begin_date` / `end_date` fails with the
MalformedPeriodError kind.  The accessors are pure functions of the report
value: an error outcome carries no value, so no partial header state is
produced, and the report itself cannot be mutated. -/
theorem malformed_period_errors (rep : TitleMasterReport) (s : String)
    (hs : reporting_period rep = CellValue.text s) :
    ((pySplitStr '=' ((pySplitStr ';' s).headD "")).length < 2 →
        begin_date rep = Except.error Err.malformedPeriod)
    ∧ ((pySplitStr ';' s).length < 2 → end_date rep = Except.error Err.malformedPeriod)
    ∧ (∀ entry, (pySplitStr ';' s)[1]? = some entry →
        (pySplitStr '=' entry).length < 2 →
        end_date rep = Except.error Err.malformedPeriod) := by
  refine ⟨?_, ?_, ?_⟩
  · intro h
    have hnone : (pySplitStr '=' ((pySplitStr ';' s).headD ""))[1]? = none :=
      List.getElem?_eq_none_iff.mpr (by omega)
    simp only [begin_date, hs, hnone]
  · intro h
    have hnone : (pySplitStr ';' s)[1]? = none :=
      List.getElem?_eq_none_iff.mpr (by omega)
    simp only [end_date, hs, hnone]
  · intro entry hentry h
    have hnone : (pySplitStr '=' entry)[1]? = none :=
      List.getElem?_eq_none_iff.mpr (by omega)
    simp only [end_date, hs, hentry, hnone]

def wsBadPeriod : Worksheet := Worksheet.mk (fun r c =>
  if r = 2 ∧ c = 2 then CellValue.text "TR_J1"
  else if r = 10 ∧ c = 2 then CellValue.text "NoSeparators"
  else CellValue.missing)

def repBadPeriod : TitleMasterReport := TitleMasterReport.mk wsBadPeriod

theorem malformed_period_errors_witness :
    begin_date repBadPeriod = Except.error Err.malformedPeriod
    ∧ end_date repBadPeriod = Except.error Err.malformedPeriod :=
  ⟨(malformed_period_errors repBadPeriod "NoSeparators" (by decide)).1 (by decide),
   (malformed_period_errors repBadPeriod "NoSeparators" (by decide)).2.1 (by decide)⟩

def wsShort : Worksheet := Worksheet.mk (fun r c =>
  if r = 2 ∧ c = 2 then CellValue.text "TR" else CellValue.missing)

def repShort : TitleMasterReport := TitleMasterReport.mk wsShort

/-- C6 counterexample: for the 2-character layout code "TR", `title_type`
does not fail with the MalformedLayoutError kind (or any error);
`report_id[3:4]` is a slice, which returns the empty string. -/
theorem title_type_short_no_error :
    "TR".length < 4
    ∧ title_type repShort = Except.ok ""
    ∧ ¬ title_type repShort = Except.error Err.malformedLayout := by
  decide

/-- C6 amended: for a layout code of length at least 4, `title_type` returns
the single character at 0-indexed position 3; for a shorter layout code it
returns the empty string, raising no error. -/
theorem title_type_slice_semantics (rep : TitleMasterReport) (s : String)
    (h : report_id rep = CellValue.text s) :
    (∀ ch, s.data[3]? = some ch → title_type rep = Except.ok (String.mk [ch]))
    ∧ (s.data.length < 4 → title_type rep = Except.ok "") := by
  constructor
  · intro ch hch
    simp only [title_type, h, pySliceStr]
    have h0 : (s.data.drop 3)[0]? = some ch := by
      rw [List.getElem?_drop]
      simpa using hch
    cases hd : s.data.drop 3 with
    | nil => rw [hd] at h0; exact absurd h0 (by simp)
    | cons a t =>
      rw [hd] at h0
      simp only [List.getElem?_cons_zero, Option.some.injEq] at h0
      subst h0
      rfl
  · intro hlen
    simp only [title_type, h, pySliceStr]
    rw [List.drop_eq_nil_of_le (by omega)]
    rfl

def wsJabc : Worksheet := Worksheet.mk (fun r c =>
  if r = 2 ∧ c = 2 then CellValue.text "TR_J1_abc" else CellValue.missing)

def repJabc : TitleMasterReport := TitleMasterReport.mk wsJabc

theorem title_type_slice_semantics_witness :
    title_type repJabc = Except.ok "J" :=
  (title_type_slice_semantics repJabc "TR_J1_abc" (by decide)).1 'J' (by decide)

/-- C7: for a layout code outside the closed set {TR_J1, TR_J3, TR_B1,
TR_B3}, header derivation fails with the UnsupportedLayoutError kind
(KeyError on the identifying-column-count dict). -/
theorem header_row_unsupported_layout (rep : TitleMasterReport) (code : String)
    (hcode : report_id rep = CellValue.text code)
    (h1 : code ≠ "TR_J1") (h2 : code ≠ "TR_J3") (h3 : code ≠ "TR_B1") (h4 : code ≠ "TR_B3") :
    header_row rep = Except.error Err.unsupportedLayout := by
  have hl : layoutCols code = none := by
    simp [layoutCols, h1, h2, h3, h4]
  simp only [header_row, hcode, hl]

def wsJ4 : Worksheet := Worksheet.mk (fun r c =>
  if r = 2 ∧ c = 2 then CellValue.text "TR_J4" else CellValue.missing)

def repJ4 : TitleMasterReport := TitleMasterReport.mk wsJ4

theorem header_row_unsupported_layout_witness :
    header_row repJ4 = Except.error Err.unsupportedLayout :=
  header_row_unsupported_layout repJ4 "TR_J4" (by decide) (by decide) (by decide)
    (by decide) (by decide)

/-- C10: when the first (resp. second) semicolon-separated entry of the
reporting period contains more than one `=`, `begin_date` (resp. `end_date`)
returns exactly the substring strictly between the first and second `=`;
text after the second `=` is silently dropped and no error is raised. -/
theorem date_extraction_between_equals (rep : TitleMasterReport) (s : String)
    (hs : reporting_period rep = CellValue.text s) :
    (∀ u v w, ((pySplitStr ';' s).headD "").data = u ++ '=' :: (v ++ '=' :: w) →
        '=' ∉ u → '=' ∉ v → begin_date rep = Except.ok (String.mk v))
    ∧ (∀ entry u v w, (pySplitStr ';' s)[1]? = some entry →
        entry.data = u ++ '=' :: (v ++ '=' :: w) →
        '=' ∉ u → '=' ∉ v → end_date rep = Except.ok (String.mk v)) := by
  constructor
  · intro u v w ht hu hv
    have h1 := pySplitStr_get1 _ u v w ht hu hv
    simp only [begin_date, hs, h1]
  · intro entry u v w hentry ht hu hv
    have h1 := pySplitStr_get1 _ u v w ht hu hv
    simp only [end_date, hs, hentry, h1]

def wsJunk : Worksheet := Worksheet.mk (fun r c =>
  if r = 2 ∧ c = 2 then CellValue.text "TR_J1"
  else if r = 10 ∧ c = 2 then
    CellValue.text "Begin_Date=2020-01-01=JUNK;End_Date=2020-12-31=Z"
  else CellValue.missing)

def repJunk : TitleMasterReport := TitleMasterReport.mk wsJunk

theorem date_extraction_between_equals_witness :
    begin_date repJunk = Except.ok "2020-01-01"
    ∧ end_date repJunk = Except.ok "2020-12-31" :=
  ⟨(date_extraction_between_equals repJunk
      "Begin_Date=2020-01-01=JUNK;End_Date=2020-12-31=Z" (by decide)).1
      "Begin_Date".data "2020-01-01".data "JUNK".data (by decide) (by decide) (by decide),
   (date_extraction_between_equals repJunk
      "Begin_Date=2020-01-01=JUNK;End_Date=2020-12-31=Z" (by decide)).2
      "End_Date=2020-12-31=Z" "End_Date".data "2020-12-31".data "Z".data
      (by decide) (by decide) (by decide) (by decide)⟩

/-- C1: for every supported layout code and every pair of dates whose month
digits at positions [5:7] parse to integers with 1 ≤ begin ≤ end ≤ 12, the
header is the lower-cased header-row cells of columns 1..count followed by
the month-name table sliced from begin to end inclusive, and its length is
count + (end − begin + 1). -/
theorem header_row_layout_months (rep : TitleMasterReport) (code : String) (k : Nat)
    (names : Nat → String) (bd ed : String) (b e : Int)
    (hcode : report_id rep = CellValue.text code)
    (hk : layoutCols code = some k)
    (hcells : ∀ c ∈ List.range' 1 k, rep.ws.cell HEADER_ROW c = CellValue.text (names c))
    (hbd : begin_date rep = Except.ok bd)
    (hed : end_date rep = Except.ok ed)
    (hb : pyInt (pySliceStr bd 5 7) = some b)
    (he : pyInt (pySliceStr ed 5 7) = some e)
    (h1 : 1 ≤ b) (hbe : b ≤ e) (h12 : e ≤ 12) :
    header_row rep =
      Except.ok ((List.range' 1 k).map (fun c => pyLower (names c))
        ++ (PERIODS.drop b.toNat).take (e.toNat + 1 - b.toNat))
    ∧ ((List.range' 1 k).map (fun c => pyLower (names c))
        ++ (PERIODS.drop b.toNat).take (e.toNat + 1 - b.toNat)).length
      = k + (e - b + 1).toNat := by
  have hmap := lowerCells_ok (fun c => rep.ws.cell HEADER_ROW c) names
    (List.range' 1 k) hcells
  have hslice : pySlice PERIODS b (e + 1)
      = (PERIODS.drop b.toNat).take (e.toNat + 1 - b.toNat) := by
    rw [pySlice_nonneg PERIODS b (e + 1) (by omega) (by omega)]
    congr 1
    omega
  constructor
  · simp only [header_row, hcode, hk, hmap, hbd, monthInt, hb, hed, he, hslice]
  · rw [List.length_append, List.length_map, List.length_range', List.length_take,
      List.length_drop]
    have hP : PERIODS.length = 13 := by rfl
    rw [hP]
    omega

def colName (c : Nat) : String := "Col" ++ Nat.repr c

def wsFull : Worksheet := Worksheet.mk (fun r c =>
  if r = 2 ∧ c = 2 then CellValue.text "TR_J1"
  else if r = 10 ∧ c = 2 then CellValue.text "Begin_Date=2020-01-01;End_Date=2020-12-31"
  else if r = HEADER_ROW ∧ 1 ≤ c ∧ c ≤ 23 then CellValue.text (colName c)
  else if 15 ≤ r ∧ r ≤ 20 ∧ 1 ≤ c ∧ c ≤ 23 then
    (if c = 2 then CellValue.num 7
     else if c = 3 then CellValue.missing
     else CellValue.text "ab\"cd")
  else CellValue.missing)

def repFull : TitleMasterReport := TitleMasterReport.mk wsFull

theorem header_row_layout_months_witness :
    header_row repFull =
      Except.ok ((List.range' 1 11).map (fun c => pyLower (colName c))
        ++ (PERIODS.drop (Int.toNat 1)).take (Int.toNat 12 + 1 - Int.toNat 1))
    ∧ ((List.range' 1 11).map (fun c => pyLower (colName c))
        ++ (PERIODS.drop (Int.toNat 1)).take (Int.toNat 12 + 1 - Int.toNat 1)).length
      = 11 + ((12 : Int) - 1 + 1).toNat :=
  header_row_layout_months repFull "TR_J1" 11 colName "2020-01-01" "2020-12-31" 1 12
    (by decide) (by decide) (by decide) (by decide) (by decide) (by decide) (by decide)
    (by decide) (by decide) (by decide)

/-- C9: for a reversed reporting period (endMonth < beginMonth, both within
1..12), the month slice is empty and the header equals exactly the
identifying columns; no error is raised and nothing is auto-corrected. -/
theorem header_row_reversed_period_empty (rep : TitleMasterReport) (code : String) (k : Nat)
    (names : Nat → String) (bd ed : String) (b e : Int)
    (hcode : report_id rep = CellValue.text code)
    (hk : layoutCols code = some k)
    (hcells : ∀ c ∈ List.range' 1 k, rep.ws.cell HEADER_ROW c = CellValue.text (names c))
    (hbd : begin_date rep = Except.ok bd)
    (hed : end_date rep = Except.ok ed)
    (hb : pyInt (pySliceStr bd 5 7) = some b)
    (he : pyInt (pySliceStr ed 5 7) = some e)
    (h1 : 1 ≤ e) (hlt : e < b) (_h12 : b ≤ 12) :
    header_row rep = Except.ok ((List.range' 1 k).map (fun c => pyLower (names c))) := by
  have hmap := lowerCells_ok (fun c => rep.ws.cell HEADER_ROW c) names
    (List.range' 1 k) hcells
  have hslice : pySlice PERIODS b (e + 1) = [] := by
    rw [pySlice_nonneg PERIODS b (e + 1) (by omega) (by omega)]
    have h0 : (e + 1).toNat - b.toNat = 0 := by omega
    rw [h0, List.take_zero]
  simp only [header_row, hcode, hk, hmap, hbd, monthInt, hb, hed, he, hslice,
    List.append_nil]

def wsRev : Worksheet := Worksheet.mk (fun r c =>
  if r = 2 ∧ c = 2 then CellValue.text "TR_J1"
  else if r = 10 ∧ c = 2 then CellValue.text "Begin_Date=2020-10-01;End_Date=2020-03-31"
  else if r = HEADER_ROW ∧ 1 ≤ c ∧ c ≤ 11 then CellValue.text (colName c)
  else CellValue.missing)

def repRev : TitleMasterReport := TitleMasterReport.mk wsRev

theorem header_row_reversed_period_empty_witness :
    header_row repRev =
      Except.ok ((List.range' 1 11).map (fun c => pyLower (colName c))) :=
  header_row_reversed_period_empty repRev "TR_J1" 11 colName "2020-10-01" "2020-03-31"
    10 3 (by decide) (by decide) (by decide) (by decide) (by decide) (by decide)
    (by decide) (by decide) (by decide) (by decide)

def wsThirteen : Worksheet := Worksheet.mk (fun r c =>
  if r = 2 ∧ c = 2 then CellValue.text "TR_J1"
  else if r = 10 ∧ c = 2 then CellValue.text "Begin_Date=2020-13-01;End_Date=2020-13-31"
  else if r = HEADER_ROW ∧ 1 ≤ c ∧ c ≤ 11 then CellValue.text (colName c)
  else CellValue.missing)

def repThirteen : TitleMasterReport := TitleMasterReport.mk wsThirteen

/-- C8 counterexample: month substring "13" parses as the integer 13, which
is outside 1..12, yet header derivation succeeds (`PERIODS[13:14]` is the
empty slice) instead of failing with the InvalidDateError kind. -/
theorem header_row_out_of_range_month_ok :
    pyInt (pySliceStr "2020-13-01" 5 7) = some 13
    ∧ ¬ (1 ≤ (13 : Int) ∧ (13 : Int) ≤ 12)
    ∧ header_row repThirteen =
        Except.ok ((List.range' 1 11).map (fun c => pyLower (colName c)))
    ∧ ¬ header_row repThirteen = Except.error Err.invalidDate := by
  decide

/-- C8 amended: header derivation fails with the InvalidDateError kind
exactly when the characters at positions [5:7] of beginDate (or, if those
parse, of endDate) are not parseable as an integer; a parseable integer
outside 1..12 does not cause this failure. -/
theorem header_row_invalid_date_parse (rep : TitleMasterReport) (code : String) (k : Nat)
    (names : Nat → String) (bd : String)
    (hcode : report_id rep = CellValue.text code)
    (hk : layoutCols code = some k)
    (hcells : ∀ c ∈ List.range' 1 k, rep.ws.cell HEADER_ROW c = CellValue.text (names c))
    (hbd : begin_date rep = Except.ok bd) :
    (pyInt (pySliceStr bd 5 7) = none → header_row rep = Except.error Err.invalidDate)
    ∧ (∀ b ed, pyInt (pySliceStr bd 5 7) = some b → end_date rep = Except.ok ed →
        pyInt (pySliceStr ed 5 7) = none →
        header_row rep = Except.error Err.invalidDate) := by
  have hmap := lowerCells_ok (fun c => rep.ws.cell HEADER_ROW c) names
    (List.range' 1 k) hcells
  constructor
  · intro hparse
    simp only [header_row, hcode, hk, hmap, hbd, monthInt, hparse]
  · intro b ed hb hed hparse
    simp only [header_row, hcode, hk, hmap, hbd, monthInt, hb, hed, hparse]

def wsBadMonth : Worksheet := Worksheet.mk (fun r c =>
  if r = 2 ∧ c = 2 then CellValue.text "TR_J1"
  else if r = 10 ∧ c = 2 then CellValue.text "Begin_Date=2020-1x-01;End_Date=2020-12-31"
  else if r = HEADER_ROW ∧ 1 ≤ c ∧ c ≤ 11 then CellValue.text (colName c)
  else CellValue.missing)

def repBadMonth : TitleMasterReport := TitleMasterReport.mk wsBadMonth

theorem header_row_invalid_date_parse_witness :
    header_row repBadMonth = Except.error Err.invalidDate :=
  (header_row_invalid_date_parse repBadMonth "TR_J1" 11 colName "2020-1x-01"
    (by decide) (by decide) (by decide) (by decide)).1 (by decide)

/-- C2 amended: when the header passes the `collections.namedtuple`
field-name validation, a mismatch between the number of values extracted by
`get_row` (one per column in 1..max(data_cols())) and the header length
makes `get_row` fail with the SchemaMismatchError kind (`namedtuple._make`
arity TypeError); when the header fails that validation, `get_row` fails
with the namedtuple ValueError kind instead, before any record is built;
in all cases `get_row` never returns a record whose value count differs
from the header length. -/
theorem get_row_arity_guard (rep : TitleMasterReport) (n : Nat) :
    (∀ header m, header_row rep = Except.ok header → validFieldNames header = true →
        (data_cols rep).max? = some m → m ≠ header.length →
        get_row rep n = Except.error Err.schemaMismatch)
    ∧ (∀ header, header_row rep = Except.ok header → validFieldNames header = false →
        get_row rep n = Except.error Err.badFieldNames)
    ∧ (∀ header row, header_row rep = Except.ok header → get_row rep n = Except.ok row →
        row.fields = header ∧ row.values.length = header.length) := by
  refine ⟨?_, ?_, ?_⟩
  · intro header m hh hval hm hne
    simp only [get_row, hh]
    rw [if_pos hval]
    simp only [hm]
    rw [if_neg]
    rw [List.length_map, List.length_range']
    exact hne
  · intro header hh hval
    simp only [get_row, hh]
    rw [if_neg (by simp [hval])]
  · intro header row hh hrow
    simp only [get_row, hh] at hrow
    by_cases hval : validFieldNames header = true
    · rw [if_pos hval] at hrow
      cases hm : (data_cols rep).max? with
      | none =>
        simp only [hm] at hrow
        exact absurd hrow (by simp)
      | some maxc =>
        simp only [hm] at hrow
        by_cases hlen : ((List.range' 1 maxc).map
            (fun c => normalizeCell (rep.ws.cell n c))).length = header.length
        · rw [if_pos hlen] at hrow
          injection hrow with hrow
          constructor
          · rw [← hrow]
          · rw [← hrow]
            exact hlen
        · rw [if_neg hlen] at hrow
          exact absurd hrow (by simp)
    · rw [if_neg hval] at hrow
      exact absurd hrow (by simp)

def wsMis : Worksheet := Worksheet.mk (fun r c =>
  if r = 2 ∧ c = 2 then CellValue.text "TR_J1"
  else if r = 10 ∧ c = 2 then CellValue.text "Begin_Date=2020-01-01;End_Date=2020-12-31"
  else if r = HEADER_ROW ∧ 1 ≤ c ∧ c ≤ 11 then CellValue.text (colName c)
  else CellValue.missing)

def repMis : TitleMasterReport := TitleMasterReport.mk wsMis

def hdrFull : List String :=
  (List.range' 1 11).map (fun c => pyLower (colName c))
    ++ ["jan", "feb", "mar", "apr", "may", "jun", "jul", "aug", "sep", "oct",
        "nov", "dec"]

theorem get_row_arity_guard_witness :
    get_row repMis 15 = Except.error Err.schemaMismatch :=
  (get_row_arity_guard repMis 15).1 hdrFull 11 (by decide) (by decide) (by decide)
    (by decide)

def wsDup : Worksheet := Worksheet.mk (fun r c =>
  if r = 2 ∧ c = 2 then CellValue.text "TR_J1"
  else if r = 10 ∧ c = 2 then CellValue.text "Begin_Date=2020-01-01;End_Date=2020-12-31"
  else if r = HEADER_ROW ∧ 1 ≤ c ∧ c ≤ 11 then CellValue.text "Title"
  else CellValue.missing)

def repDup : TitleMasterReport := TitleMasterReport.mk wsDup

def hdrDup : List String :=
  List.replicate 11 "title"
    ++ ["jan", "feb", "mar", "apr", "may", "jun", "jul", "aug", "sep", "oct",
        "nov", "dec"]

/-- C2 counterexample: with a duplicate-name header (row-14 cells all
"Title") and a mismatched column count (11 probed columns against header
length 23), `get_row` fails at the `collections.namedtuple` field-name
validation (ValueError), not with the SchemaMismatchError kind the claim
asserts for every count mismatch. -/
theorem get_row_mismatch_bad_names_cex :
    header_row repDup = Except.ok hdrDup
    ∧ (data_cols repDup).max? = some 11
    ∧ ¬ (11 = hdrDup.length)
    ∧ get_row repDup 15 = Except.error Err.badFieldNames
    ∧ ¬ get_row repDup 15 = Except.error Err.schemaMismatch := by
  decide

/-- C3 amended: when the probed column count equals the header length and
the header names pass the `collections.namedtuple` field-name validation,
`get_row n` returns the record whose field names are the header and whose
values are, position for position, the normalized cells of row n: the empty
string for a missing cell, and the cell's string form with every
double-quote character removed otherwise; a header failing the validation
makes `get_row` raise at record-type creation instead. -/
theorem get_row_normalized_record (rep : TitleMasterReport) (n : Nat)
    (header : List String) (m : Nat)
    (hh : header_row rep = Except.ok header)
    (hvalid : validFieldNames header = true)
    (hm : (data_cols rep).max? = some m)
    (hlen : m = header.length) :
    get_row rep n =
      Except.ok ⟨header, (List.range' 1 m).map (fun c => normalizeCell (rep.ws.cell n c))⟩
    ∧ ∀ c ∈ List.range' 1 m,
        (rep.ws.cell n c = CellValue.missing → normalizeCell (rep.ws.cell n c) = "")
        ∧ (rep.ws.cell n c ≠ CellValue.missing →
            normalizeCell (rep.ws.cell n c) = stripQuotes (cellStr (rep.ws.cell n c))) := by
  constructor
  · simp only [get_row, hh]
    rw [if_pos hvalid]
    simp only [hm]
    rw [if_pos (by rw [List.length_map, List.length_range']; exact hlen)]
  · intro c _
    constructor
    · intro hmiss
      rw [hmiss]
      rfl
    · intro hnm
      cases hv : rep.ws.cell n c with
      | missing => exact absurd hv hnm
      | text s => rfl
      | num v => rfl

theorem get_row_normalized_record_witness :
    get_row repFull 15 =
      Except.ok ⟨hdrFull,
        (List.range' 1 23).map (fun c => normalizeCell (repFull.ws.cell 15 c))⟩ :=
  (get_row_normalized_record repFull 15 hdrFull 23 (by decide) (by decide)
    (by decide) (by decide)).1

def wsDupFull : Worksheet := Worksheet.mk (fun r c =>
  if r = 2 ∧ c = 2 then CellValue.text "TR_J1"
  else if r = 10 ∧ c = 2 then CellValue.text "Begin_Date=2020-01-01;End_Date=2020-12-31"
  else if r = HEADER_ROW ∧ 1 ≤ c ∧ c ≤ 23 then CellValue.text "Title"
  else CellValue.missing)

def repDupFull : TitleMasterReport := TitleMasterReport.mk wsDupFull

/-- C3 counterexample: the probed column count (23) equals the header length
(23), yet `get_row` returns no record: the duplicate header names (row-14
cells all "Title") make `collections.namedtuple` raise ValueError at
record-type creation, an error path the claim omits. -/
theorem get_row_duplicate_names_cex :
    header_row repDupFull = Except.ok hdrDup
    ∧ (data_cols repDupFull).max? = some 23
    ∧ 23 = hdrDup.length
    ∧ get_row repDupFull 15 = Except.error Err.badFieldNames
    ∧ ¬ get_row repDupFull 15 =
        Except.ok ⟨hdrDup,
          (List.range' 1 23).map (fun c => normalizeCell (repDupFull.ws.cell 15 c))⟩ := by
  decide

/-- C4: `data_rows` returns exactly the consecutive row numbers from the
fixed data-start row 15 up to but not including the first row (within the
fixed maximum-row bound) whose column-1 cell is missing, and `data_cols`
returns exactly the consecutive column numbers from 1 up to but not
including the first column whose header-row (row 14) cell is missing. -/
theorem data_bounds_probe (rep : TitleMasterReport) (k m : Nat)
    (hk1 : DATA_ROW_START ≤ k) (hk2 : k ≤ MAX_ROWS)
    (hkblank : rep.ws.cell k 1 = CellValue.missing)
    (hkfull : ∀ r ∈ List.range' DATA_ROW_START (k - DATA_ROW_START),
        rep.ws.cell r 1 ≠ CellValue.missing)
    (hm1 : DATA_COL_START ≤ m) (hm2 : m ≤ MAX_COLS)
    (hmblank : rep.ws.cell HEADER_ROW m = CellValue.missing)
    (hmfull : ∀ c ∈ List.range' DATA_COL_START (m - DATA_COL_START),
        rep.ws.cell HEADER_ROW c ≠ CellValue.missing) :
    data_rows rep = List.range' DATA_ROW_START (k - DATA_ROW_START)
    ∧ data_cols rep = List.range' DATA_COL_START (m - DATA_COL_START) := by
  constructor
  · have hscan := scanFrom_spec
      (fun row => decide (rep.ws.cell row 1 = CellValue.missing))
      (MAX_ROWS - DATA_ROW_START + 1) DATA_ROW_START k hk1
      (by simp only [MAX_ROWS, DATA_ROW_START] at hk2 ⊢; omega)
      (by simp [hkblank])
      (fun r hr1 hr2 => by
        have hmem : r ∈ List.range' DATA_ROW_START (k - DATA_ROW_START) :=
          List.mem_range'_1.mpr ⟨hr1, by omega⟩
        simp [hkfull r hmem])
    unfold data_rows
    rw [hscan]
  · have hscan := scanFrom_spec
      (fun col => decide (rep.ws.cell HEADER_ROW col = CellValue.missing))
      (MAX_COLS - DATA_COL_START + 1) DATA_COL_START m hm1
      (by simp only [MAX_COLS, DATA_COL_START] at hm2 ⊢; omega)
      (by simp [hmblank])
      (fun c hc1 hc2 => by
        have hmem : c ∈ List.range' DATA_COL_START (m - DATA_COL_START) :=
          List.mem_range'_1.mpr ⟨hc1, by omega⟩
        simp [hmfull c hmem])
    unfold data_cols
    rw [hscan]

def wsBounds : Worksheet := Worksheet.mk (fun r c =>
  if r = HEADER_ROW ∧ 1 ≤ c ∧ c ≤ 5 then CellValue.text (colName c)
  else if 15 ≤ r ∧ r ≤ 20 ∧ c = 1 then CellValue.text "t"
  else CellValue.missing)

def repBounds : TitleMasterReport := TitleMasterReport.mk wsBounds

theorem data_bounds_probe_witness :
    (data_rows repBounds = List.range' DATA_ROW_START (21 - DATA_ROW_START)
      ∧ data_cols repBounds = List.range' DATA_COL_START (6 - DATA_COL_START))
    ∧ (data_rows repShort = List.range' DATA_ROW_START (15 - DATA_ROW_START)
      ∧ data_cols repShort = List.range' DATA_COL_START (1 - DATA_COL_START))
    ∧ data_rows repBounds = [15, 16, 17, 18, 19, 20]
    ∧ data_rows repShort = [] :=
  ⟨data_bounds_probe repBounds 21 6 (by decide) (by decide) (by decide) (by decide)
      (by decide) (by decide) (by decide) (by decide),
   data_bounds_probe repShort 15 1 (by decide) (by decide) (by decide) (by decide)
      (by decide) (by decide) (by decide) (by decide),
   by decide, by decide⟩
